import Mathlib

/-!
Verification development for the vLLM excerpt consisting of
`vllm/attention/selector.py` (backend resolution with layered overrides and
memoization) and `vllm/compilation/inductor_pass.py` (content-hash identities
for compiler passes).

The Python sources are embedded shallowly:
* global mutable state (`forced_attn_backend`, the `functools.cache` table of
  `_cached_get_attn_backend`) becomes an explicit `SelectorState` threaded
  through the operations;
* the external platform collaborator `current_platform.get_attn_backend_cls`
  becomes a function parameter (returning the empty string models a
  falsy/empty result);
* `hashlib.sha256`, UTF-8 encoding and the canonical `json.dumps`
  serialization are implemented concretely over byte lists.
-/

namespace VllmSpec

/-- Modelled from the spec: `BackendVariant` is "an enumerated, closed set of
named kernel-implementation identifiers known in-tree"; the actual `_Backend`
enum lives in `vllm/platforms`, outside the excerpted sources.  A
representative closed set of members is used; all theorems that depend on
membership are stated via hypotheses on `backend_name_to_enum`. -/
inductive _Backend where
  | FLASH_ATTN
  | FLASH_ATTN_VLLM_V1
  | XFORMERS
  | ROCM_FLASH
  | TORCH_SDPA
  | FLASHINFER
  | TRITON_MLA
  | PALLAS
  | IPEX
  | BLOCK_SPARSE_FLASH_ATTN
  | NO_ATTENTION
deriving DecidableEq

/-- The name table of the enum (`_Backend.__members__`). -/
def _Backend.members : List (String × _Backend) :=
  [("FLASH_ATTN", .FLASH_ATTN),
   ("FLASH_ATTN_VLLM_V1", .FLASH_ATTN_VLLM_V1),
   ("XFORMERS", .XFORMERS),
   ("ROCM_FLASH", .ROCM_FLASH),
   ("TORCH_SDPA", .TORCH_SDPA),
   ("FLASHINFER", .FLASHINFER),
   ("TRITON_MLA", .TRITON_MLA),
   ("PALLAS", .PALLAS),
   ("IPEX", .IPEX),
   ("BLOCK_SPARSE_FLASH_ATTN", .BLOCK_SPARSE_FLASH_ATTN),
   ("NO_ATTENTION", .NO_ATTENTION)]

/-- First-match association-list lookup (Python `dict` access / `in` test). -/
def lookupVal {α β : Type} [DecidableEq α] (k : α) : List (α × β) → Option β
  | [] => none
  | (k', v) :: rest => if k' = k then some v else lookupVal k rest

/-- `backend_name_to_enum`: `_Backend[backend_name] if backend_name in
_Backend.__members__ else None`. -/
def backend_name_to_enum (backend_name : String) : Option _Backend :=
  lookupVal backend_name _Backend.members

/-- The tuple of arguments of `_cached_get_attn_backend`, which is exactly the
memoization key of its `@cache` decorator.  `torch.dtype` values are
represented by their names. -/
structure ResolutionKey where
  head_size : Nat
  dtype : String
  kv_cache_dtype : Option String
  block_size : Nat
  is_attention_free : Bool
  is_blocksparse : Bool
  use_v1 : Bool
  use_mla : Bool
deriving DecidableEq

/-- The classes `_cached_get_attn_backend` can return: the two fixed imported
backends of the short-circuit branches, or the class loaded by
`resolve_obj_by_qualname` from the platform-provided qualified name. -/
inductive AttnBackendClass where
  | BlocksparseFlashAttentionBackend
  | PlaceholderAttentionBackend
  | resolved (qualname : String)
deriving DecidableEq

/-- `vllm.utils.resolve_obj_by_qualname` (external loader): yields the class
designated by a fully qualified name. -/
def resolve_obj_by_qualname (qualname : String) : AttnBackendClass :=
  .resolved qualname

/-- The one error `_cached_get_attn_backend` raises:
`ValueError("Invalid attention backend for ...")`. -/
inductive SelectorError where
  | ValueErrorInvalidBackend
deriving DecidableEq

/-- The external collaborator `current_platform.get_attn_backend_cls`,
abstracted as a function of the selected backend and the numeric/shape
parameters; returning `""` models a falsy (empty/None) result. -/
abbrev Platform :=
  Option _Backend → Nat → String → Option String → Nat → Bool → Bool → String

/-- The module-level mutable state of `selector.py`: the
`forced_attn_backend` global plus the `@cache` table of
`_cached_get_attn_backend`. -/
structure SelectorState where
  forced_attn_backend : Option _Backend
  cache : List (ResolutionKey × AttnBackendClass)
deriving DecidableEq

/-- The state at process start: no forced override, empty cache. -/
def initState : SelectorState :=
  { forced_attn_backend := none, cache := [] }

/-- `global_force_attn_backend`: unconditionally replaces the global forced
backend (`None` re-enables automatic selection). -/
def global_force_attn_backend (st : SelectorState)
    (attn_backend : Option _Backend) : SelectorState :=
  { st with forced_attn_backend := attn_backend }

/-- `get_global_forced_attn_backend`: read-only accessor of the global. -/
def get_global_forced_attn_backend (st : SelectorState) : Option _Backend :=
  st.forced_attn_backend

/-- The `selected_backend` computation inside `_cached_get_attn_backend`:
the forced override wins; otherwise the `VLLM_ATTENTION_BACKEND`
environment value is converted with `backend_name_to_enum`. -/
def selected_backend_of (forced : Option _Backend)
    (env_backend : Option String) : Option _Backend :=
  match forced with
  | some b => some b
  | none =>
    match env_backend with
    | some s => backend_name_to_enum s
    | none => none

/-- The body of `_cached_get_attn_backend` (the function as written, before
the `@cache` decorator is applied).  `env_backend` is the value of
`envs.VLLM_ATTENTION_BACKEND` read during the call; `forced` is the value of
the `forced_attn_backend` global at call time. -/
def _cached_get_attn_backend_body (platform : Platform)
    (env_backend : Option String) (forced : Option _Backend)
    (k : ResolutionKey) : Except SelectorError AttnBackendClass :=
  if k.is_blocksparse then
    .ok .BlocksparseFlashAttentionBackend
  else if k.is_attention_free then
    .ok .PlaceholderAttentionBackend
  else
    let selected := selected_backend_of forced env_backend
    let attention_cls :=
      platform selected k.head_size k.dtype k.kv_cache_dtype k.block_size
        k.use_v1 k.use_mla
    if attention_cls = "" then
      .error .ValueErrorInvalidBackend
    else
      .ok (resolve_obj_by_qualname attention_cls)

/-- `_cached_get_attn_backend` with its `@cache` decorator: on a key hit the
stored class is returned and the state is untouched; on a miss the body runs
against the current globals and a successful result is stored (Python's
`functools.cache` does not cache raised exceptions). -/
def _cached_get_attn_backend (platform : Platform)
    (env_backend : Option String) (st : SelectorState) (k : ResolutionKey) :
    Except SelectorError AttnBackendClass × SelectorState :=
  match lookupVal k st.cache with
  | some v => (.ok v, st)
  | none =>
    match _cached_get_attn_backend_body platform env_backend
        st.forced_attn_backend k with
    | .ok v => (.ok v, { st with cache := (k, v) :: st.cache })
    | .error e => (.error e, st)

/-- The environment values the selector reads per call. -/
structure Env where
  VLLM_ATTENTION_BACKEND : Option String
  VLLM_USE_V1 : Bool

/-- `get_attn_backend`: snapshots `envs.VLLM_USE_V1` into the key and
delegates to the cached private function. -/
def get_attn_backend (platform : Platform) (env : Env) (st : SelectorState)
    (head_size : Nat) (dtype : String) (kv_cache_dtype : Option String)
    (block_size : Nat) (is_attention_free : Bool) (is_blocksparse : Bool)
    (use_mla : Bool) : Except SelectorError AttnBackendClass × SelectorState :=
  _cached_get_attn_backend platform env.VLLM_ATTENTION_BACKEND st
    { head_size := head_size, dtype := dtype,
      kv_cache_dtype := kv_cache_dtype, block_size := block_size,
      is_attention_free := is_attention_free,
      is_blocksparse := is_blocksparse, use_v1 := env.VLLM_USE_V1,
      use_mla := use_mla }

/-- `global_force_attn_backend_context_manager`: saves the current global
override, installs `attn_backend`, runs the body, and restores the saved
value in a `finally` block.  The body is an arbitrary state transformer that
either returns a value or raises (`Except.error`); in both cases its state
effects are kept and the override is restored afterwards. -/
def global_force_attn_backend_context_manager {ε α : Type}
    (attn_backend : _Backend)
    (body : SelectorState → SelectorState × Except ε α)
    (st : SelectorState) : SelectorState × Except ε α :=
  let original_value := get_global_forced_attn_backend st
  let st1 := global_force_attn_backend st (some attn_backend)
  let res := body st1
  (global_force_attn_backend res.1 original_value, res.2)

/-- One observable mutation of the selector module's state: a
`global_force_attn_backend` call or a `_cached_get_attn_backend` call (with
any environment reading and any key). -/
inductive SelStep (platform : Platform) : SelectorState → SelectorState → Prop
  | force (st : SelectorState) (b : Option _Backend) :
      SelStep platform st (global_force_attn_backend st b)
  | call (st : SelectorState) (env_backend : Option String)
      (k : ResolutionKey) :
      SelStep platform st (_cached_get_attn_backend platform env_backend st k).2

/-- Reflexive-transitive closure of `SelStep`. -/
inductive SelSteps (platform : Platform) :
    SelectorState → SelectorState → Prop
  | refl (st : SelectorState) : SelSteps platform st st
  | tail {st st1 st2 : SelectorState} : SelSteps platform st st1 →
      SelStep platform st1 st2 → SelSteps platform st st2

/-- States reachable from process start through the selector's API. -/
def Reachable (platform : Platform) (st : SelectorState) : Prop :=
  SelSteps platform initState st

/-! ## SHA-256 (`hashlib.sha256`), over byte lists

A concrete implementation of the external hash used by `inductor_pass.py`.
Words are `Nat`s kept below `2^32` by explicit reduction. -/

namespace SHA256

/-- Reduce to a 32-bit word. -/
def w32 (x : Nat) : Nat := x % 4294967296

/-- 32-bit right rotation. -/
def rotr (n x : Nat) : Nat := w32 ((x >>> n) ||| (x <<< (32 - n)))

/-- The 64 round constants. -/
def K : List Nat :=
  [1116352408, 1899447441, 3049323471, 3921009573,
   961987163, 1508970993, 2453635748, 2870763221,
   3624381080, 310598401, 607225278, 1426881987,
   1925078388, 2162078206, 2614888103, 3248222580,
   3835390401, 4022224774, 264347078, 604807628,
   770255983, 1249150122, 1555081692, 1996064986,
   2554220882, 2821834349, 2952996808, 3210313671,
   3336571891, 3584528711, 113926993, 338241895,
   666307205, 773529912, 1294757372, 1396182291,
   1695183700, 1986661051, 2177026350, 2456956037,
   2730485921, 2820302411, 3259730800, 3345764771,
   3516065817, 3600352804, 4094571909, 275423344,
   430227734, 506948616, 659060556, 883997877,
   958139571, 1322822218, 1537002063, 1747873779,
   1955562222, 2024104815, 2227730452, 2361852424,
   2428436474, 2756734187, 3204031479, 3329325298]

/-- The initial hash value. -/
def H0 : List Nat :=
  [1779033703, 3144134277, 1013904242, 2773480762,
   1359893119, 2600822924, 528734635, 1541459225]

/-- Big-endian byte representation of `x` on `nbytes` bytes. -/
def toBytesBE (nbytes x : Nat) : List Nat :=
  (List.range nbytes).map (fun i => (x >>> (8 * (nbytes - 1 - i))) % 256)

/-- Append the `0x80` byte, the zero padding and the 64-bit big-endian bit
length so the total length is a multiple of 64 bytes. -/
def pad (msg : List Nat) : List Nat :=
  let z := (120 - ((msg.length + 1) % 64)) % 64
  msg ++ [128] ++ List.replicate z 0 ++ toBytesBE 8 (8 * msg.length)

/-- Group bytes into big-endian 32-bit words. -/
def wordsOfBytes : List Nat → List Nat
  | b0 :: b1 :: b2 :: b3 :: rest =>
      (((b0 * 256 + b1) * 256 + b2) * 256 + b3) :: wordsOfBytes rest
  | _ => []

/-- One step of the message-schedule extension at index `i`. -/
def extendWord (w : List Nat) (i : Nat) : Nat :=
  let w15 := w.getD (i - 15) 0
  let w2 := w.getD (i - 2) 0
  let s0 := rotr 7 w15 ^^^ rotr 18 w15 ^^^ (w15 >>> 3)
  let s1 := rotr 17 w2 ^^^ rotr 19 w2 ^^^ (w2 >>> 10)
  w32 (w.getD (i - 16) 0 + s0 + w.getD (i - 7) 0 + s1)

/-- Extend the 16 block words to the 64 schedule words. -/
def schedule (w16 : List Nat) : List Nat :=
  (List.range 48).foldl (fun w j => w ++ [extendWord w (16 + j)]) w16

/-- One compression round on the eight-word working state. -/
def compressStep (w : List Nat) (st : List Nat) (i : Nat) : List Nat :=
  let a := st.getD 0 0
  let b := st.getD 1 0
  let c := st.getD 2 0
  let d := st.getD 3 0
  let e := st.getD 4 0
  let f := st.getD 5 0
  let g := st.getD 6 0
  let h := st.getD 7 0
  let S1 := rotr 6 e ^^^ rotr 11 e ^^^ rotr 25 e
  let ch := (e &&& f) ^^^ ((4294967295 ^^^ e) &&& g)
  let temp1 := w32 (h + S1 + ch + K.getD i 0 + w.getD i 0)
  let S0 := rotr 2 a ^^^ rotr 13 a ^^^ rotr 22 a
  let maj := (a &&& b) ^^^ (a &&& c) ^^^ (b &&& c)
  let temp2 := w32 (S0 + maj)
  [w32 (temp1 + temp2), a, b, c, w32 (d + temp1), e, f, g]

/-- Compress one 64-byte block into the running hash value. -/
def compressBlock (hs : List Nat) (block : List Nat) : List Nat :=
  let w := schedule (wordsOfBytes block)
  let st := (List.range 64).foldl (compressStep w) hs
  (List.range 8).map (fun i => w32 (hs.getD i 0 + st.getD i 0))

/-- Split a byte list into 64-byte chunks. -/
def chunks (l : List Nat) : List (List Nat) :=
  if h : l.length = 0 then [] else l.take 64 :: chunks (l.drop 64)
termination_by l.length
decreasing_by
  simp only [List.length_drop]
  omega

/-- Lower-case hexadecimal digit. -/
def hexChar (n : Nat) : Char :=
  Char.ofNat (if n < 10 then 48 + n else 87 + n)

/-- Eight hex characters of a 32-bit word, most significant first. -/
def wordHex (x : Nat) : List Char :=
  (List.range 8).map (fun i => hexChar ((x >>> (4 * (7 - i))) % 16))

/-- `hashlib.sha256(bytes).hexdigest()`. -/
def sha256hex (msg : List Nat) : String :=
  let hs := (chunks (pad msg)).foldl compressBlock H0
  String.mk (hs.foldr (fun x acc => wordHex x ++ acc) [])

end SHA256

/-! ## UTF-8 encoding (`str.encode("utf-8")`) -/

/-- UTF-8 bytes of one character. -/
def utf8Bytes (c : Char) : List Nat :=
  let n := c.toNat
  if n < 128 then [n]
  else if n < 2048 then
    [192 ||| (n >>> 6), 128 ||| (n &&& 63)]
  else if n < 65536 then
    [224 ||| (n >>> 12), 128 ||| ((n >>> 6) &&& 63), 128 ||| (n &&& 63)]
  else
    [240 ||| (n >>> 18), 128 ||| ((n >>> 12) &&& 63),
     128 ||| ((n >>> 6) &&& 63), 128 ||| (n &&& 63)]

/-- UTF-8 bytes of a string. -/
def encode_utf8 (s : String) : List Nat :=
  s.data.foldr (fun c acc => utf8Bytes c ++ acc) []

/-! ## `InductorPass` hashing utilities

`hash_source(*srcs)` feeds the UTF-8 bytes of each argument's source text to
one running hasher.  Arguments that are functions or objects contribute their
retrieved source text (`inspect.getsource`); the embedding therefore takes the
list of source strings directly. -/

namespace InductorPass

/-- `InductorPass.hash_source(*srcs)`: one SHA-256 over the concatenated
UTF-8 encodings of the arguments' source texts, in call order. -/
def hash_source (srcs : List String) : String :=
  SHA256.sha256hex (srcs.foldl (fun acc src => acc ++ encode_utf8 src) [])

end InductorPass

/-! ## Canonical JSON serialization (`json.dumps(dict_, sort_keys=True)`)

The mappings hashed by `InductorPass.hash_dict` are Python `dict`s (string
keys, unique by construction); values are modelled by a JSON value type. -/

/-- JSON-serializable values appearing in the hashed configuration dicts. -/
inductive JValue where
  | jnull
  | jbool (b : Bool)
  | jint (n : Int)
  | jstr (s : String)
deriving DecidableEq

/-- Four upper-case-free hex digits (for `\uXXXX` escapes). -/
def hex4Chars (n : Nat) : List Char :=
  (List.range 4).map (fun i => SHA256.hexChar ((n >>> (4 * (3 - i))) % 16))

/-- JSON string escaping as `json.dumps` performs it (default
`ensure_ascii=True`; non-BMP characters would use surrogate pairs, which the
hashed configuration keys/values do not contain). -/
def jsonEscapeChar (c : Char) : List Char :=
  let bs := Char.ofNat 92
  if c.toNat = 34 then [bs, Char.ofNat 34]
  else if c.toNat = 92 then [bs, bs]
  else if c.toNat = 8 then [bs, Char.ofNat 98]
  else if c.toNat = 9 then [bs, Char.ofNat 116]
  else if c.toNat = 10 then [bs, Char.ofNat 110]
  else if c.toNat = 12 then [bs, Char.ofNat 102]
  else if c.toNat = 13 then [bs, Char.ofNat 114]
  else if c.toNat < 32 ∨ 127 ≤ c.toNat then
    bs :: Char.ofNat 117 :: hex4Chars c.toNat
  else [c]

/-- A JSON string literal, quotes included. -/
def jsonQuote (s : String) : String :=
  String.mk
    (Char.ofNat 34 ::
      s.data.foldr (fun c acc => jsonEscapeChar c ++ acc) [Char.ofNat 34])

/-- Serialize one JSON value. -/
def jsonOfJValue : JValue → String
  | .jnull => "null"
  | .jbool true => "true"
  | .jbool false => "false"
  | .jint n => toString n
  | .jstr s => jsonQuote s

/-- `json.dumps(m, sort_keys=True)` for a string-keyed dict: items rendered
in lexicographically sorted key order with the default separators. -/
def json_dumps_sort_keys (m : List (String × JValue)) : String :=
  let ks := (m.map Prod.fst).insertionSort (fun a b => a ≤ b)
  "\x7b" ++
    String.intercalate (", ")
      (ks.map (fun k =>
        jsonQuote k ++ (": ") ++
          (match lookupVal k m with
           | some v => jsonOfJValue v
           | none => "null"))) ++
    "\x7d"

namespace InductorPass

/-- `InductorPass.hash_dict`: SHA-256 of the UTF-8 bytes of the
sorted-keys JSON serialization of the dictionary. -/
def hash_dict (dict_ : List (String × JValue)) : String :=
  SHA256.sha256hex (encode_utf8 (json_dumps_sort_keys dict_))

end InductorPass

/-! ## `CallableInductorPass`

The wrapper stores the source text retrievable for its callable (what
`inspect.getsource` would return at a given moment) and the `_uuid` computed
or supplied at construction. -/

/-- The observable fields of a `CallableInductorPass` instance. -/
structure CallableInductorPass where
  callable_src : String
  _uuid : String
deriving DecidableEq

/-- `CallableInductorPass.__init__(callable, uuid=None)`:
`self._uuid = self.hash_source(callable) if uuid is None else uuid`. -/
def CallableInductorPass.init (callable_src : String)
    (uuid : Option String) : CallableInductorPass :=
  { callable_src := callable_src,
    _uuid :=
      match uuid with
      | none => InductorPass.hash_source [callable_src]
      | some u => u }

/-- `CallableInductorPass.uuid(self)`: returns the stored `_uuid`. -/
def CallableInductorPass.uuid (self : CallableInductorPass) : String :=
  self._uuid

/-! ## Concrete instances used to instantiate the theorems -/

/-- A platform resolver that can always serve the request. -/
def pfDefault : Platform :=
  fun _ _ _ _ _ _ _ =>
    "vllm.attention.backends.flash_attn.FlashAttentionBackend"

/-- A platform resolver that can never serve the request. -/
def pfEmpty : Platform := fun _ _ _ _ _ _ _ => ""

/-- An ordinary resolution key (no short-circuit flag set). -/
def kFlash : ResolutionKey :=
  { head_size := 64, dtype := "float16", kv_cache_dtype := none,
    block_size := 16, is_attention_free := false, is_blocksparse := false,
    use_v1 := false, use_mla := false }

/-- A key with the block-sparse flag set (and even the attention-free flag,
to exercise the precedence of the first short-circuit). -/
def kBlocksparse : ResolutionKey :=
  { head_size := 64, dtype := "float16", kv_cache_dtype := none,
    block_size := 16, is_attention_free := true, is_blocksparse := true,
    use_v1 := false, use_mla := false }

/-- A key with only the attention-free flag set. -/
def kAttnFree : ResolutionKey :=
  { head_size := 64, dtype := "float16", kv_cache_dtype := none,
    block_size := 16, is_attention_free := true, is_blocksparse := false,
    use_v1 := false, use_mla := false }

/-- The state after a first successful resolution of `kFlash` from the
initial state. -/
def stAfterFirst : SelectorState :=
  (_cached_get_attn_backend pfDefault none initState kFlash).2

/-! ## Helper lemmas about the selector -/

/-- After a call that returned `.ok v`, the cache of the resulting state
holds `v` at the key. -/
theorem lookupVal_cache_after_ok {platform : Platform} {env : Option String}
    {st : SelectorState} {k : ResolutionKey} {v : AttnBackendClass}
    {st1 : SelectorState}
    (h : _cached_get_attn_backend platform env st k = (.ok v, st1)) :
    lookupVal k st1.cache = some v := by
  unfold _cached_get_attn_backend at h
  cases hl : lookupVal k st.cache with
  | some w =>
    rw [hl] at h
    simp only [Prod.mk.injEq, Except.ok.injEq] at h
    obtain ⟨hv, hst⟩ := h
    subst hv
    subst hst
    exact hl
  | none =>
    rw [hl] at h
    cases hb : _cached_get_attn_backend_body platform env
        st.forced_attn_backend k with
    | ok u =>
      rw [hb] at h
      simp only [Prod.mk.injEq, Except.ok.injEq] at h
      obtain ⟨hv, hst⟩ := h
      subst hv
      subst hst
      simp [lookupVal]
    | error e =>
      rw [hb] at h
      simp only [Prod.mk.injEq] at h
      exact absurd h.1 (by simp)

/-- A single API step never removes a cache entry. -/
theorem selStep_preserves_lookupVal {platform : Platform}
    {st st2 : SelectorState} (hstep : SelStep platform st st2)
    (k : ResolutionKey) (v : AttnBackendClass)
    (h : lookupVal k st.cache = some v) : lookupVal k st2.cache = some v := by
  cases hstep with
  | force b => exact h
  | call env k2 =>
    show lookupVal k (_cached_get_attn_backend platform env st k2).2.cache
      = some v
    unfold _cached_get_attn_backend
    cases hl : lookupVal k2 st.cache with
    | some w => exact h
    | none =>
      cases hb : _cached_get_attn_backend_body platform env
          st.forced_attn_backend k2 with
      | ok u =>
        have hne : k2 ≠ k := by
          intro he
          subst he
          rw [hl] at h
          exact Option.noConfusion h
        simpa [lookupVal, hne] using h
      | error e => exact h

/-- Any sequence of API steps preserves cache entries. -/
theorem selSteps_preserves_lookupVal {platform : Platform}
    {st st2 : SelectorState} (hsteps : SelSteps platform st st2)
    (k : ResolutionKey) (v : AttnBackendClass)
    (h : lookupVal k st.cache = some v) : lookupVal k st2.cache = some v := by
  induction hsteps with
  | refl => exact h
  | tail hsteps hstep ih => exact selStep_preserves_lookupVal hstep k v ih

/-- Every cache entry of a state is a value the body produced for its key
under some environment and forced-override reading. -/
def CacheSound (platform : Platform) (st : SelectorState) : Prop :=
  ∀ k v, lookupVal k st.cache = some v →
    ∃ env forced,
      _cached_get_attn_backend_body platform env forced k = .ok v

/-- The initial state has a sound (empty) cache. -/
theorem cacheSound_init (platform : Platform) :
    CacheSound platform initState := by
  intro k v h
  simp [initState, lookupVal] at h

/-- Cache soundness is preserved by every API step. -/
theorem cacheSound_step {platform : Platform} {st st2 : SelectorState}
    (hstep : SelStep platform st st2) (hs : CacheSound platform st) :
    CacheSound platform st2 := by
  cases hstep with
  | force b => exact hs
  | call env k2 =>
    intro k v
    show lookupVal k (_cached_get_attn_backend platform env st k2).2.cache
        = some v → _
    unfold _cached_get_attn_backend
    cases hl : lookupVal k2 st.cache with
    | some w => exact fun h => hs k v h
    | none =>
      cases hb : _cached_get_attn_backend_body platform env
          st.forced_attn_backend k2 with
      | ok u =>
        intro h
        simp only [lookupVal] at h
        by_cases he : k2 = k
        · subst he
          rw [if_pos rfl] at h
          obtain hv : u = v := Option.some.injEq .. |>.mp h
          subst hv
          exact ⟨env, st.forced_attn_backend, hb⟩
        · rw [if_neg he] at h
          exact hs k v h
      | error e => exact fun h => hs k v h

/-- Every reachable state has a sound cache. -/
theorem cacheSound_reachable {platform : Platform} {st : SelectorState}
    (h : Reachable platform st) : CacheSound platform st := by
  induction h with
  | refl => exact cacheSound_init platform
  | tail hsteps hstep ih => exact cacheSound_step hstep ih

/-- With the block-sparse flag set, the body short-circuits. -/
theorem body_blocksparse {platform : Platform} {env : Option String}
    {forced : Option _Backend} {k : ResolutionKey}
    (hbs : k.is_blocksparse = true) :
    _cached_get_attn_backend_body platform env forced k
      = .ok .BlocksparseFlashAttentionBackend := by
  simp [_cached_get_attn_backend_body, hbs]

/-- With only the attention-free flag set, the body short-circuits to the
placeholder backend. -/
theorem body_attention_free {platform : Platform} {env : Option String}
    {forced : Option _Backend} {k : ResolutionKey}
    (hbs : k.is_blocksparse = false) (haf : k.is_attention_free = true) :
    _cached_get_attn_backend_body platform env forced k
      = .ok .PlaceholderAttentionBackend := by
  simp [_cached_get_attn_backend_body, hbs, haf]

/-! ## Claim theorems -/

/-- Claim C1: memoization contract of backend resolution.  Once
`_cached_get_attn_backend` has returned `.ok v` for a key, every later call
with an equal key — after any sequence of further forced-override changes
and resolutions, with any environment-override reading — returns that same
cached `v` and leaves the state unchanged: the cache is keyed on the
parameters only, not on the override state. -/
theorem C1_memoization_ignores_later_override_changes
    (platform : Platform) (env env2 : Option String)
    (st st1 st2 : SelectorState) (k : ResolutionKey) (v : AttnBackendClass)
    (h1 : _cached_get_attn_backend platform env st k = (.ok v, st1))
    (h2 : SelSteps platform st1 st2) :
    _cached_get_attn_backend platform env2 st2 k = (.ok v, st2) := by
  have hl : lookupVal k st2.cache = some v :=
    selSteps_preserves_lookupVal h2 k v (lookupVal_cache_after_ok h1)
  unfold _cached_get_attn_backend
  rw [hl]

/-- Witness for C1: resolve `kFlash` once from the initial state, then force
the override to `XFORMERS` and also set the environment override; the second
call still returns the cached first result. -/
theorem C1_witness :
    _cached_get_attn_backend pfDefault none initState kFlash
      = (.ok (.resolved
          ("vllm.attention.backends.flash_attn.FlashAttentionBackend")),
         stAfterFirst) ∧
    _cached_get_attn_backend pfDefault (some ("XFORMERS"))
        (global_force_attn_backend stAfterFirst (some .XFORMERS)) kFlash
      = (.ok (.resolved
          ("vllm.attention.backends.flash_attn.FlashAttentionBackend")),
         global_force_attn_backend stAfterFirst (some .XFORMERS)) :=
  ⟨rfl,
   C1_memoization_ignores_later_override_changes pfDefault none
     (some ("XFORMERS")) initState stAfterFirst
     (global_force_attn_backend stAfterFirst (some .XFORMERS)) kFlash
     (.resolved ("vllm.attention.backends.flash_attn.FlashAttentionBackend"))
     rfl
     (SelSteps.tail (SelSteps.refl stAfterFirst)
       (SelStep.force stAfterFirst (some .XFORMERS)))⟩

/-- Claim C2: `global_force_attn_backend_context_manager` restores the
forced-override state on every exit path.  (1) For every body — including
one that raises — the state after the call has the override the state had
immediately before the call; (2) the body's outcome (value or propagated
error) is passed through unchanged; (3) with nested scopes, after the inner
scope exits the override is the outer scope's variant `A`; (4) after the
outer scope exits the override is the original value. -/
theorem C2_scoped_override_restores_state :
    (∀ (ε α : Type) (b : _Backend)
        (body : SelectorState → SelectorState × Except ε α)
        (st : SelectorState),
      get_global_forced_attn_backend
          (global_force_attn_backend_context_manager b body st).1
        = get_global_forced_attn_backend st) ∧
    (∀ (ε α : Type) (b : _Backend)
        (body : SelectorState → SelectorState × Except ε α)
        (st : SelectorState),
      (global_force_attn_backend_context_manager b body st).2
        = (body (global_force_attn_backend st (some b))).2) ∧
    (∀ (ε α : Type) (A B : _Backend)
        (inner : SelectorState → SelectorState × Except ε α)
        (st : SelectorState),
      get_global_forced_attn_backend
          (global_force_attn_backend_context_manager B inner
            (global_force_attn_backend st (some A))).1 = some A) ∧
    (∀ (ε α : Type) (A B : _Backend)
        (inner : SelectorState → SelectorState × Except ε α)
        (st : SelectorState),
      get_global_forced_attn_backend
          (global_force_attn_backend_context_manager A
            (fun s => global_force_attn_backend_context_manager B inner s)
            st).1
        = get_global_forced_attn_backend st) := by
  refine ⟨?_, ?_, ?_, ?_⟩ <;> intros <;> rfl

/-- Claim C3: a set forced override beats the environment override.  With
neither short-circuit flag set and the forced override holding `V` while the
environment names a different recognized variant `W`, the selection is `V`,
the platform resolver is invoked with `some V`, and the environment value is
not consulted at all (the call behaves exactly as with no environment
override). -/
theorem C3_forced_override_beats_env_override (platform : Platform)
    (w : String) (V W : _Backend) (k : ResolutionKey)
    (hbs : k.is_blocksparse = false) (haf : k.is_attention_free = false)
    (henv : backend_name_to_enum w = some W) (hne : W ≠ V) :
    selected_backend_of (some V) (some w) = some V ∧
    _cached_get_attn_backend_body platform (some w) (some V) k
      = (let attention_cls :=
           platform (some V) k.head_size k.dtype k.kv_cache_dtype
             k.block_size k.use_v1 k.use_mla
         if attention_cls = "" then .error .ValueErrorInvalidBackend
         else .ok (resolve_obj_by_qualname attention_cls)) ∧
    _cached_get_attn_backend_body platform (some w) (some V) k
      = _cached_get_attn_backend_body platform none (some V) k := by
  refine ⟨rfl, ?_, rfl⟩
  simp [_cached_get_attn_backend_body, hbs, haf, selected_backend_of]

/-- Witness for C3: forced override `FLASH_ATTN` versus environment override
naming the recognized, different variant `XFORMERS`. -/
theorem C3_witness :
    kFlash.is_blocksparse = false ∧ kFlash.is_attention_free = false ∧
    backend_name_to_enum ("XFORMERS") = some .XFORMERS ∧
    _Backend.XFORMERS ≠ _Backend.FLASH_ATTN ∧
    selected_backend_of (some .FLASH_ATTN) (some ("XFORMERS"))
      = some .FLASH_ATTN :=
  ⟨rfl, rfl, by decide, by decide,
   (C3_forced_override_beats_env_override pfDefault ("XFORMERS")
     .FLASH_ATTN .XFORMERS kFlash rfl rfl (by decide) (by decide)).1⟩

/-- Claim C4: block-sparse short-circuit.  In every reachable state — thus
with any forced override, any cache content produced by earlier calls — and
with any environment override, a call on a key with `is_blocksparse = true`
returns the fixed block-sparse backend. -/
theorem C4_blocksparse_short_circuit (platform : Platform)
    (env : Option String) (st : SelectorState) (k : ResolutionKey)
    (hbs : k.is_blocksparse = true) (hr : Reachable platform st) :
    (_cached_get_attn_backend platform env st k).1
      = .ok .BlocksparseFlashAttentionBackend := by
  have hs := cacheSound_reachable hr
  unfold _cached_get_attn_backend
  cases hl : lookupVal k st.cache with
  | some v =>
    obtain ⟨env2, f2, hb⟩ := hs k v hl
    rw [body_blocksparse hbs] at hb
    obtain hv := (Except.ok.injEq .. |>.mp hb)
    rw [hv]
  | none =>
    rw [body_blocksparse hbs]

/-- Witness for C4: a block-sparse key (whose attention-free flag is even
set), resolved in a reachable state with a forced override installed and an
environment override present. -/
theorem C4_witness :
    kBlocksparse.is_blocksparse = true ∧
    (_cached_get_attn_backend pfDefault (some ("XFORMERS"))
        (global_force_attn_backend initState (some .TORCH_SDPA))
        kBlocksparse).1
      = .ok .BlocksparseFlashAttentionBackend :=
  ⟨rfl,
   C4_blocksparse_short_circuit pfDefault (some ("XFORMERS"))
     (global_force_attn_backend initState (some .TORCH_SDPA)) kBlocksparse
     rfl
     (SelSteps.tail (SelSteps.refl initState)
       (SelStep.force initState (some .TORCH_SDPA)))⟩

/-- Claim C5: attention-free short-circuit.  In every reachable state and
with any environment override, a call on a key with
`is_attention_free = true` and `is_blocksparse = false` returns the fixed
placeholder (no-attention) backend. -/
theorem C5_attention_free_short_circuit (platform : Platform)
    (env : Option String) (st : SelectorState) (k : ResolutionKey)
    (haf : k.is_attention_free = true) (hbs : k.is_blocksparse = false)
    (hr : Reachable platform st) :
    (_cached_get_attn_backend platform env st k).1
      = .ok .PlaceholderAttentionBackend := by
  have hs := cacheSound_reachable hr
  unfold _cached_get_attn_backend
  cases hl : lookupVal k st.cache with
  | some v =>
    obtain ⟨env2, f2, hb⟩ := hs k v hl
    rw [body_attention_free hbs haf] at hb
    obtain hv := (Except.ok.injEq .. |>.mp hb)
    rw [hv]
  | none =>
    rw [body_attention_free hbs haf]

/-- Witness for C5: an attention-free, non-block-sparse key resolved in a
reachable state with a forced override installed and an environment override
present. -/
theorem C5_witness :
    kAttnFree.is_attention_free = true ∧ kAttnFree.is_blocksparse = false ∧
    (_cached_get_attn_backend pfDefault (some ("XFORMERS"))
        (global_force_attn_backend initState (some .TORCH_SDPA))
        kAttnFree).1
      = .ok .PlaceholderAttentionBackend :=
  ⟨rfl, rfl,
   C5_attention_free_short_circuit pfDefault (some ("XFORMERS"))
     (global_force_attn_backend initState (some .TORCH_SDPA)) kAttnFree
     rfl rfl
     (SelSteps.tail (SelSteps.refl initState)
       (SelStep.force initState (some .TORCH_SDPA)))⟩

/-- Claim C6: lenient handling of an unrecognized environment override.
With no forced override, neither short-circuit flag set, and an environment
string that names no recognized variant, the selection is `none` (no
explicit choice is handed to the platform resolver), the call behaves
exactly as if no environment override were present, and whenever the
platform resolver can serve the default request the call succeeds rather
than raising. -/
theorem C6_unrecognized_env_override_is_lenient (platform : Platform)
    (s : String) (k : ResolutionKey)
    (hbs : k.is_blocksparse = false) (haf : k.is_attention_free = false)
    (hunrec : backend_name_to_enum s = none) :
    selected_backend_of none (some s) = none ∧
    _cached_get_attn_backend_body platform (some s) none k
      = _cached_get_attn_backend_body platform none none k ∧
    (platform none k.head_size k.dtype k.kv_cache_dtype k.block_size
        k.use_v1 k.use_mla ≠ "" →
      ∃ c, _cached_get_attn_backend_body platform (some s) none k
        = .ok c) := by
  have hsel : selected_backend_of none (some s) = none := by
    simp [selected_backend_of, hunrec]
  refine ⟨hsel, ?_, ?_⟩
  · simp [_cached_get_attn_backend_body, hbs, haf, hsel, selected_backend_of,
      hunrec]
  · intro hcls
    refine ⟨resolve_obj_by_qualname
      (platform none k.head_size k.dtype k.kv_cache_dtype k.block_size
        k.use_v1 k.use_mla), ?_⟩
    simp [_cached_get_attn_backend_body, hbs, haf, hsel, hcls]

/-- Witness for C6: the string `NOT_A_REAL_BACKEND` is not a member of the
variant enum, and resolution falls through to the platform default. -/
theorem C6_witness :
    kFlash.is_blocksparse = false ∧ kFlash.is_attention_free = false ∧
    backend_name_to_enum ("NOT_A_REAL_BACKEND") = none ∧
    selected_backend_of none (some ("NOT_A_REAL_BACKEND")) = none :=
  ⟨rfl, rfl, by decide,
   (C6_unrecognized_env_override_is_lenient pfDefault
     ("NOT_A_REAL_BACKEND") kFlash rfl rfl (by decide)).1⟩

/-- Claim C7: resolution-failure error.  With neither short-circuit flag
set, when the platform resolver returns the empty reference the body raises
the `ValueError` (configuration error) instead of returning a backend, and
when the resolver returns a non-empty reference the body returns the loaded
backend and no error is raised. -/
theorem C7_empty_resolution_raises (platform : Platform)
    (env : Option String) (forced : Option _Backend) (k : ResolutionKey)
    (hbs : k.is_blocksparse = false) (haf : k.is_attention_free = false) :
    (platform (selected_backend_of forced env) k.head_size k.dtype
        k.kv_cache_dtype k.block_size k.use_v1 k.use_mla = "" →
      _cached_get_attn_backend_body platform env forced k
        = .error .ValueErrorInvalidBackend) ∧
    (platform (selected_backend_of forced env) k.head_size k.dtype
        k.kv_cache_dtype k.block_size k.use_v1 k.use_mla ≠ "" →
      _cached_get_attn_backend_body platform env forced k
        = .ok (resolve_obj_by_qualname
            (platform (selected_backend_of forced env) k.head_size k.dtype
              k.kv_cache_dtype k.block_size k.use_v1 k.use_mla))) := by
  constructor <;> intro hcls <;>
    simp [_cached_get_attn_backend_body, hbs, haf, hcls]

/-- Witness for C7: a platform that cannot serve the request makes the body
raise the configuration error. -/
theorem C7_witness :
    kFlash.is_blocksparse = false ∧ kFlash.is_attention_free = false ∧
    pfEmpty (selected_backend_of none none) kFlash.head_size kFlash.dtype
      kFlash.kv_cache_dtype kFlash.block_size kFlash.use_v1 kFlash.use_mla
      = "" ∧
    _cached_get_attn_backend_body pfEmpty none none kFlash
      = .error .ValueErrorInvalidBackend :=
  ⟨rfl, rfl, rfl,
   (C7_empty_resolution_raises pfEmpty none none kFlash rfl rfl).1 rfl⟩

/-! ## Helper lemmas for the hashing component -/

/-- Sorting with the string order is invariant under permutation. -/
theorem insertionSort_eq_of_perm {l1 l2 : List String} (h : l1.Perm l2) :
    l1.insertionSort (fun a b => a ≤ b)
      = l2.insertionSort (fun a b => a ≤ b) :=
  List.eq_of_perm_of_sorted
    ((List.perm_insertionSort _ l1).trans
      (h.trans (List.perm_insertionSort _ l2).symm))
    (List.sorted_insertionSort _ l1) (List.sorted_insertionSort _ l2)

/-- Lookup in an association list with distinct keys is invariant under
permutation. -/
theorem lookupVal_eq_of_perm {α β : Type} [DecidableEq α] (k : α)
    {l1 l2 : List (α × β)} (h : l1.Perm l2)
    (hnd : (l1.map Prod.fst).Nodup) :
    lookupVal k l1 = lookupVal k l2 := by
  induction h with
  | nil => rfl
  | cons x h ih =>
    simp only [List.map_cons, List.nodup_cons] at hnd
    simp only [lookupVal]
    rw [ih hnd.2]
  | swap x y l =>
    simp only [List.map_cons, List.nodup_cons, List.mem_cons] at hnd
    have hxy : y.1 ≠ x.1 := fun he => hnd.1 (Or.inl he)
    simp only [lookupVal]
    by_cases h1 : y.1 = k
    · by_cases h2 : x.1 = k
      · exact absurd (h1.trans h2.symm) hxy
      · simp [h1, h2]
    · by_cases h2 : x.1 = k <;> simp [h1, h2]
  | trans h12 h23 ih12 ih23 =>
    have hnd2 := (h12.map Prod.fst).nodup hnd
    rw [ih12 hnd, ih23 hnd2]

/-- Pulling the initial accumulator out of the byte-encoding fold. -/
theorem foldr_utf8_out (l : List Char) (x : List Nat) :
    l.foldr (fun c acc => utf8Bytes c ++ acc) x
      = l.foldr (fun c acc => utf8Bytes c ++ acc) [] ++ x := by
  induction l with
  | nil => simp
  | cons c l ih => simp [ih, List.append_assoc]

/-- UTF-8 encoding is a monoid homomorphism on strings. -/
theorem encode_utf8_append (s t : String) :
    encode_utf8 (s ++ t) = encode_utf8 s ++ encode_utf8 t := by
  obtain ⟨l1⟩ := s
  obtain ⟨l2⟩ := t
  show (l1 ++ l2).foldr (fun c acc => utf8Bytes c ++ acc) []
    = l1.foldr (fun c acc => utf8Bytes c ++ acc) []
      ++ l2.foldr (fun c acc => utf8Bytes c ++ acc) []
  rw [List.foldr_append]
  exact foldr_utf8_out l1 _

/-! ## Claim theorems for the hashing component -/

/-- Claim C8: key-order independence of the mapping digest.  Two
dictionaries holding exactly the same key-value pairs in different insertion
orders (a permutation, with the distinct keys a Python dict guarantees)
serialize identically under sorted-keys JSON and therefore hash to the same
digest. -/
theorem C8_hash_dict_key_order_independent
    (m1 m2 : List (String × JValue)) (hperm : m1.Perm m2)
    (hnd : (m1.map Prod.fst).Nodup) :
    InductorPass.hash_dict m1 = InductorPass.hash_dict m2 := by
  have hsort := insertionSort_eq_of_perm (hperm.map Prod.fst)
  have hlook : ∀ k, lookupVal k m1 = lookupVal k m2 :=
    fun k => lookupVal_eq_of_perm k hperm hnd
  unfold InductorPass.hash_dict json_dumps_sort_keys
  simp only [hsort, hlook]

/-- Witness for C8: `digestOfMapping({a:1,b:2}) = digestOfMapping({b:2,a:1})`. -/
theorem C8_witness :
    ([(("a" : String), JValue.jint 1), ("b", JValue.jint 2)]).Perm
        [("b", JValue.jint 2), ("a", JValue.jint 1)] ∧
    (([(("a" : String), JValue.jint 1), ("b", JValue.jint 2)]).map
        Prod.fst).Nodup ∧
    InductorPass.hash_dict [("a", JValue.jint 1), ("b", JValue.jint 2)]
      = InductorPass.hash_dict [("b", JValue.jint 2), ("a", JValue.jint 1)] :=
  ⟨List.Perm.swap (("b", JValue.jint 2)) (("a", JValue.jint 1)) [],
   by decide,
   C8_hash_dict_key_order_independent
     [("a", JValue.jint 1), ("b", JValue.jint 2)]
     [("b", JValue.jint 2), ("a", JValue.jint 1)]
     (List.Perm.swap (("b", JValue.jint 2)) (("a", JValue.jint 1)) [])
     (by decide)⟩

/-- Claim C9: the callable wrapper's digest is fixed at construction.  A
`CallableInductorPass` built with an explicit digest `u` reports exactly `u`
from `uuid()`; built without one, it reports the digest of the callable's
source as retrieved at construction — and keeps reporting that stored value
even if the retrievable source later changes to something that would hash
differently. -/
theorem C9_callable_pass_uuid_fixed_at_construction :
    (∀ (src u : String),
      (CallableInductorPass.init src (some u)).uuid = u) ∧
    (∀ (src : String),
      (CallableInductorPass.init src none).uuid
        = InductorPass.hash_source [src]) ∧
    (∀ (src later : String),
      ({ CallableInductorPass.init src none with
          callable_src := later }).uuid
        = InductorPass.hash_source [src]) :=
  ⟨fun _ _ => rfl, fun _ => rfl, fun _ _ => rfl⟩

/-- Claim C10 (implicit): the multi-argument source digest depends only on
the concatenation of its arguments — the hasher is fed the arguments' UTF-8
bytes back to back with no separator, so `hash_source(s1, s2)` equals
`hash_source(s1 ++ s2)`, and distinct argument lists with equal
concatenations collide. -/
theorem C10_hash_source_depends_only_on_concatenation (s1 s2 : String) :
    InductorPass.hash_source [s1, s2]
      = InductorPass.hash_source [s1 ++ s2] := by
  unfold InductorPass.hash_source
  simp [List.foldl, encode_utf8_append]

end VllmSpec
